import Mathlib

/-!
Verification of the envmon sensor-polling program.

Shallow embedding of the relevant source modules:

* envmon/pm25aqi.py   (particulate sensor driver, AQISensor.read)
* envmon/timer.py     (Event, Timer scheduler)
* envmon/scd40.py     (CO2 sensor driver: crc8, check_buffer_crc,
                       force_calibration, cached readings)
* envmon/bmp280.py    (pressure sensor driver: config/mode state machine,
                       pressure compensation)
* envmon/equations.py (bytes_to_pressure, sea_level_pressure)
* envmon/sensors.py   (Sensor base class: open_connection retry logic,
                       BMP280.read)

Python floats are modelled as exact rationals, Python ints as Nat or Int,
raised exceptions as Except, and the value None as Option.none.  Bus
transactions are abstracted: the bytes a device returns are parameters of
the embedded functions, and writes that a driver issues to the bus are
returned as an explicit trace.
-/

/-- Modelled from the spec: the shared Reading Store (the SensorData
dataclass imported by the drivers from the sensors module; its class
definition is absent from the source tree, only its field accesses
appear in the drivers).  Fields follow the names the drivers assign:
pm10, pm25, pm100 are the three particulate mass concentrations,
co2 and humidity may hold None, per the SCD40 driver.  Spec gives each
field default 0; the CO2 driver caches start as None. -/
structure SensorData where
  pm10 : Nat := 0
  pm25 : Nat := 0
  pm100 : Nat := 0
  temp_c : ℚ := 0
  humidity : Option ℚ := none
  pressure_hpa : Option ℚ := none
  co2 : Option Nat := none
  deriving Repr, DecidableEq

/-- Big-endian 16-bit word at offset i of a byte buffer
(struct.unpack of a 2-byte slice, pattern greater-than H). -/
def be16 (buf : List Nat) (i : Nat) : Nat :=
  buf.getD i 0 * 256 + buf.getD (i + 1) 0

namespace AQISensor

/-- Header validation of AQISensor.read: the first two buffer bytes must
be the ASCII bytes of BM (0x42, 0x4D). -/
def header_ok (buf : List Nat) : Bool :=
  buf.take 2 == [0x42, 0x4D]

/-- Frame-size validation of AQISensor.read: the big-endian word at
bytes 2..3 must equal 28. -/
def frame_size_ok (buf : List Nat) : Bool :=
  be16 buf 2 == 28

/-- Checksum validation of AQISensor.read: the big-endian word at bytes
30..31 must equal the arithmetic sum of the first 30 bytes. -/
def checksum_ok (buf : List Nat) : Bool :=
  (buf.take 30).sum == be16 buf 30

/-- struct.unpack of twelve big-endian 16-bit words from a byte slice;
struct.error (caught by the caller) when the slice is not exactly 24
bytes long. -/
def unpack12 (bs : List Nat) : Option (List Nat) :=
  if bs.length = 24 then
    some [be16 bs 0, be16 bs 2, be16 bs 4, be16 bs 6, be16 bs 8,
          be16 bs 10, be16 bs 12, be16 bs 14, be16 bs 16, be16 bs 18,
          be16 bs 20, be16 bs 22]
  else
    none

/-- AQISensor.read from envmon/pm25aqi.py, after the 32-byte raw bus read
has filled the buffer.  Each failed validation only emits a log line and
falls through; the decode step then runs unconditionally, and only a
struct.error (caught) leaves the store untouched.  Returns the updated
store and the list of logged error messages. -/
def read (buf : List Nat) (s : SensorData) : SensorData × List String :=
  let logs1 : List String :=
    if header_ok buf then [] else ["Invalid header"]
  let logs2 : List String :=
    if frame_size_ok buf then [] else ["Invalid Frame Size"]
  let logs3 : List String :=
    if checksum_ok buf then [] else ["Invalid checksum"]
  match unpack12 ((buf.drop 4).take 24) with
  | some r =>
      ({ s with pm10 := r.getD 0 0, pm25 := r.getD 1 0, pm100 := r.getD 2 0 },
       logs1 ++ logs2 ++ logs3)
  | none =>
      (s, logs1 ++ logs2 ++ logs3 ++ ["failed to unpack buffer"])

end AQISensor

lemma getD_take_drop (l : List Nat) (i n j d : Nat) (hj : j < n) :
    ((l.drop i).take n).getD j d = l.getD (i + j) d := by
  simp only [List.getD_eq_getElem?_getD, List.getElem?_take, hj, if_pos,
    List.getElem?_drop]

lemma aqi_slice_be16 (buf : List Nat) (k : Nat) (hk : k + 1 < 24) :
    be16 ((buf.drop 4).take 24) k = be16 buf (4 + k) := by
  unfold be16
  rw [getD_take_drop buf 4 24 k 0 (Nat.lt_of_succ_lt hk),
    getD_take_drop buf 4 24 (k + 1) 0 hk]
  ring_nf

lemma aqi_unpack_of_len32 (buf : List Nat) (h : buf.length = 32) :
    AQISensor.unpack12 ((buf.drop 4).take 24) =
      some [be16 buf 4, be16 buf 6, be16 buf 8, be16 buf 10, be16 buf 12,
            be16 buf 14, be16 buf 16, be16 buf 18, be16 buf 20, be16 buf 22,
            be16 buf 24, be16 buf 26] := by
  unfold AQISensor.unpack12
  have hlen : ((buf.drop 4).take 24).length = 24 := by
    simp [List.length_take, List.length_drop, h]
  rw [if_pos hlen]
  rw [aqi_slice_be16 buf 0 (by norm_num), aqi_slice_be16 buf 2 (by norm_num),
    aqi_slice_be16 buf 4 (by norm_num), aqi_slice_be16 buf 6 (by norm_num),
    aqi_slice_be16 buf 8 (by norm_num), aqi_slice_be16 buf 10 (by norm_num),
    aqi_slice_be16 buf 12 (by norm_num), aqi_slice_be16 buf 14 (by norm_num),
    aqi_slice_be16 buf 16 (by norm_num), aqi_slice_be16 buf 18 (by norm_num),
    aqi_slice_be16 buf 20 (by norm_num), aqi_slice_be16 buf 22 (by norm_num)]

lemma sum_le_of_bytes (l : List Nat) (h : ∀ b ∈ l, b < 256) :
    l.sum ≤ l.length * 255 := by
  induction l with
  | nil => simp
  | cons a t ih =>
      have ha : a ≤ 255 := Nat.lt_succ_iff.mp (h a (by simp))
      have ht : t.sum ≤ t.length * 255 := ih (fun b hb => h b (by simp [hb]))
      simp only [List.sum_cons, List.length_cons, Nat.succ_mul]
      omega

lemma aqi_checksum_sum_lt (buf : List Nat) (hbytes : ∀ b ∈ buf, b < 256) :
    (buf.take 30).sum < 65536 := by
  have h1 : (buf.take 30).sum ≤ (buf.take 30).length * 255 :=
    sum_le_of_bytes _ (fun b hb => hbytes b (List.mem_of_mem_take hb))
  have h2 : (buf.take 30).length ≤ 30 := List.length_take_le 30 buf
  have : (buf.take 30).length * 255 ≤ 30 * 255 :=
    Nat.mul_le_mul_right 255 h2
  omega

/-- C1: the claim reads that any validation failure (bad header, bad
frame length, bad checksum) leaves the pm fields of the store unchanged.
Counterexample: the all-zeros 32-byte frame fails the header check, yet
AQISensor.read still decodes it and overwrites pm10 (prior value 99
becomes 0): the code only logs validation failures and falls through to
the store update. -/
theorem aqi_read_invalid_header_updates_store_cex :
    AQISensor.header_ok (List.replicate 32 0) = false ∧
    (AQISensor.read (List.replicate 32 0)
        { pm10 := 99, pm25 := 99, pm100 := 99 }).1.pm10 = 0 ∧
    ¬ (AQISensor.read (List.replicate 32 0)
        { pm10 := 99, pm25 := 99, pm100 := 99 }).1.pm10 = 99 := by
  refine ⟨by decide, by decide, by decide⟩

/-- C1 (amended): for a 32-byte frame on which any of the three
validations fails, AQISensor.read logs the failure and does not raise,
but it does NOT skip the update: the store pm10, pm25, pm100 fields are
overwritten with the three words decoded from the frame (the store keeps
its previous value only if the 24-byte payload slice cannot be unpacked,
which cannot happen for a 32-byte buffer). -/
theorem aqi_read_validation_failure_still_updates (buf : List Nat)
    (s : SensorData) (hlen : buf.length = 32)
    (hfail : AQISensor.header_ok buf = false ∨
      AQISensor.frame_size_ok buf = false ∨
      AQISensor.checksum_ok buf = false) :
    (AQISensor.read buf s).1 =
      { s with pm10 := be16 buf 4, pm25 := be16 buf 6,
               pm100 := be16 buf 8 } := by
  unfold AQISensor.read
  rw [aqi_unpack_of_len32 buf hlen]
  simp

/-- Witness for the amended C1 theorem at the all-zeros frame. -/
theorem aqi_read_validation_failure_still_updates_witness :
    AQISensor.header_ok (List.replicate 32 0) = false ∧
    (AQISensor.read (List.replicate 32 0) {}).1 =
      { ({} : SensorData) with
          pm10 := be16 (List.replicate 32 0) 4,
          pm25 := be16 (List.replicate 32 0) 6,
          pm100 := be16 (List.replicate 32 0) 8 } :=
  ⟨by decide,
   aqi_read_validation_failure_still_updates (List.replicate 32 0) {}
     (by decide) (Or.inl (by decide))⟩

/-- C6: for a well-formed 32-byte frame (header BM, declared length 28,
trailing big-endian checksum equal to the sum of the first 30 bytes mod
65536), AQISensor.read decodes the twelve big-endian 16-bit fields of
bytes 4..27 in order, stores the first three into the pm10, pm25, pm100
fields of the store, and logs no error. -/
theorem aqi_read_wellformed_frame_decodes (buf : List Nat) (s : SensorData)
    (hlen : buf.length = 32) (hbytes : ∀ b ∈ buf, b < 256)
    (hh : AQISensor.header_ok buf = true)
    (hf : AQISensor.frame_size_ok buf = true)
    (hc : be16 buf 30 = (buf.take 30).sum % 65536) :
    AQISensor.unpack12 ((buf.drop 4).take 24) =
      some [be16 buf 4, be16 buf 6, be16 buf 8, be16 buf 10, be16 buf 12,
            be16 buf 14, be16 buf 16, be16 buf 18, be16 buf 20, be16 buf 22,
            be16 buf 24, be16 buf 26] ∧
    (AQISensor.read buf s).1.pm10 = be16 buf 4 ∧
    (AQISensor.read buf s).1.pm25 = be16 buf 6 ∧
    (AQISensor.read buf s).1.pm100 = be16 buf 8 ∧
    (AQISensor.read buf s).2 = [] := by
  have hsum : (buf.take 30).sum < 65536 := aqi_checksum_sum_lt buf hbytes
  have hcs : AQISensor.checksum_ok buf = true := by
    unfold AQISensor.checksum_ok
    rw [hc, Nat.mod_eq_of_lt hsum]
    simp
  refine ⟨aqi_unpack_of_len32 buf hlen, ?_⟩
  unfold AQISensor.read
  rw [aqi_unpack_of_len32 buf hlen]
  simp [hh, hf, hcs]

/-- A concrete well-formed particulate frame used as the C6 witness:
header BM, length field 28, payload words 1..12, checksum 249. -/
def aqiTestFrame : List Nat :=
  [0x42, 0x4D, 0, 28,
   0, 1, 0, 2, 0, 3, 0, 4, 0, 5, 0, 6,
   0, 7, 0, 8, 0, 9, 0, 10, 0, 11, 0, 12,
   0, 0, 0, 249]

/-- Witness for the C6 theorem at a concrete well-formed frame. -/
theorem aqi_read_wellformed_frame_decodes_witness :
    (AQISensor.read aqiTestFrame {}).1.pm10 = be16 aqiTestFrame 4 ∧
    (AQISensor.read aqiTestFrame {}).1.pm25 = be16 aqiTestFrame 6 ∧
    (AQISensor.read aqiTestFrame {}).1.pm100 = be16 aqiTestFrame 8 ∧
    (AQISensor.read aqiTestFrame {}).2 = [] :=
  (aqi_read_wellformed_frame_decodes aqiTestFrame {}
    (by decide) (by decide) (by decide) (by decide) (by decide)).2

/-- A scheduled event from envmon/timer.py: the callback is left
abstract, interval and last-fire time are clock values modelled as exact
rationals. The field prev is initialised to 0.0 by the constructor. -/
structure Event where
  interval : ℚ
  prev : ℚ
  deriving Repr, DecidableEq

/-- Event.update from envmon/timer.py: fire the callback and record the
fire time exactly when now minus prev strictly exceeds the interval.
Returns the updated event and whether the callback fired. -/
def Event.update (e : Event) (now : ℚ) : Event × Bool :=
  if now - e.prev > e.interval then ({ e with prev := now }, true)
  else (e, false)

/-- Timer.run from envmon/timer.py for one tick: every registered event
is updated once, in registration order, against the same clock value.
Returns the updated events and the fire flags in registration order. -/
def Timer.run (events : List Event) (now : ℚ) : List Event × List Bool :=
  ((events.map (fun e => Event.update e now)).map Prod.fst,
   (events.map (fun e => Event.update e now)).map Prod.snd)

/-- Folding Event.update over a sequence of ticks, collecting the fire
flag of each tick. -/
def Event.runTicks (e : Event) (ticks : List ℚ) : Event × List Bool :=
  match ticks with
  | [] => (e, [])
  | t :: rest =>
      let p := Event.update e t
      let q := Event.runTicks p.1 rest
      (q.1, p.2 :: q.2)

lemma Event.runTicks_nil (e : Event) : Event.runTicks e [] = (e, []) := rfl

lemma Event.runTicks_cons (e : Event) (t : ℚ) (rest : List ℚ) :
    Event.runTicks e (t :: rest) =
      ((Event.runTicks (Event.update e t).1 rest).1,
       (Event.update e t).2 :: (Event.runTicks (Event.update e t).1 rest).2) :=
  rfl

lemma Event.runTicks_no_fire (e : Event) (ticks : List ℚ)
    (h : ∀ u ∈ ticks, u - e.prev ≤ e.interval) :
    Event.runTicks e ticks = (e, List.replicate ticks.length false) := by
  induction ticks with
  | nil => rfl
  | cons t rest ih =>
      have ht : ¬ (t - e.prev > e.interval) :=
        not_lt.mpr (h t (by simp))
      rw [Event.runTicks_cons]
      unfold Event.update
      rw [if_neg ht]
      simp [ih (fun u hu => h u (by simp [hu])), List.replicate_succ]

lemma Event.runTicks_append (e : Event) (l1 l2 : List ℚ) :
    Event.runTicks e (l1 ++ l2) =
      ((Event.runTicks (Event.runTicks e l1).1 l2).1,
       (Event.runTicks e l1).2 ++ (Event.runTicks (Event.runTicks e l1).1 l2).2) := by
  induction l1 generalizing e with
  | nil => simp [Event.runTicks_nil]
  | cons t rest ih =>
      simp only [List.cons_append, Event.runTicks_cons, ih]

/-- C2: the claim reads that an event must fire on the first tick where
the elapsed time since its last fire is greater than or equal to its
interval, the boundary case elapsed equal to the interval included.
Counterexample: an event with interval 5 last fired at 0, ticked at
exactly 5 (elapsed 5 = interval), does not fire: Event.update compares
with strict greater-than. -/
theorem event_update_boundary_cex :
    (5 : ℚ) - (Event.mk 5 0).prev ≥ (Event.mk 5 0).interval ∧
    (Event.update (Event.mk 5 0) 5).2 = false := by
  constructor
  · show (5 : ℚ) - 0 ≥ 5
    norm_num
  · unfold Event.update
    rw [if_neg]
    show ¬ (5 : ℚ) - 0 > 5
    norm_num

/-- C2 (amended): an event fires on a tick exactly when the elapsed time
now minus prev STRICTLY exceeds its interval (not at the boundary
elapsed equal to the interval); it does not fire on any tick with
elapsed at most the interval, it fires exactly once on the first tick
whose elapsed time exceeds the interval and its last-fire time becomes
that tick; and within one Timer.run tick the events are each updated
once, in registration order, the fire flag of each being the strict
comparison. -/
theorem event_fires_iff_elapsed_exceeds_interval (e : Event) (now t : ℚ)
    (ticks : List ℚ) (events : List Event)
    (hq : ∀ u ∈ ticks, u - e.prev ≤ e.interval)
    (ht : t - e.prev > e.interval) :
    ((Event.update e now).2 = true ↔ now - e.prev > e.interval) ∧
    Event.runTicks e (ticks ++ [t]) =
      ({ e with prev := t }, List.replicate ticks.length false ++ [true]) ∧
    (Timer.run events now).2 =
      events.map (fun v => decide (now - v.prev > v.interval)) := by
  refine ⟨?_, ?_, ?_⟩
  · unfold Event.update
    by_cases h : now - e.prev > e.interval
    · simp [h]
    · simp [h]
  · rw [Event.runTicks_append, Event.runTicks_no_fire e ticks hq]
    rw [Event.runTicks_cons]
    unfold Event.update
    rw [if_pos ht]
    simp [Event.runTicks_nil]
  · unfold Timer.run
    simp only [List.map_map]
    congr 1
    funext v
    unfold Event.update
    by_cases h : now - v.prev > v.interval
    · simp [h]
    · simp [h]

/-- Witness for the amended C2 theorem: interval 5, last fire 0, ticks
at 1, 3 and exactly 5 do not fire (including the boundary tick at 5),
the tick at 6 fires. -/
theorem event_fires_iff_elapsed_exceeds_interval_witness :
    ((Event.update (Event.mk 5 0) 7).2 = true ↔
      (7 : ℚ) - (Event.mk 5 0).prev > (Event.mk 5 0).interval) ∧
    Event.runTicks (Event.mk 5 0) ([1, 3, 5] ++ [6]) =
      ({ Event.mk 5 0 with prev := 6 },
        List.replicate ([1, 3, 5] : List ℚ).length false ++ [true]) ∧
    (Timer.run [Event.mk 5 0] 7).2 =
      [Event.mk 5 0].map (fun v => decide ((7 : ℚ) - v.prev > v.interval)) :=
  event_fires_iff_elapsed_exceeds_interval (Event.mk 5 0) 7 6 [1, 3, 5]
    [Event.mk 5 0]
    (by
      intro u hu
      fin_cases hu <;> · show _ - (0 : ℚ) ≤ 5; norm_num)
    (by show (6 : ℚ) - 0 > 5; norm_num)

namespace SCD40

/-- One shift round of the CRC-8 inner loop from SCD40.crc8: shift
left, xor with the polynomial 0x31 when bit 7 was set.  As in the
source, intermediate values are not masked to 8 bits. -/
def crc8_round (crc : Nat) : Nat :=
  if crc &&& 0x80 ≠ 0 then (crc <<< 1) ^^^ 0x31 else crc <<< 1

/-- Eight iterations of the inner loop. -/
def crc8_rounds : Nat → Nat → Nat
  | 0, crc => crc
  | n + 1, crc => crc8_rounds n (crc8_round crc)

/-- SCD40.crc8 from envmon/scd40.py: initial value 0xFF, xor each byte
in, run eight MSB-first rounds with polynomial 0x31, return the bottom
8 bits. -/
def crc8 (buffer : List Nat) : Nat :=
  (buffer.foldl (fun crc b => crc8_rounds 8 (crc ^^^ b)) 0xFF) &&& 0xFF

/-- SCD40.check_buffer_crc from envmon/scd40.py: walk the buffer in
3-byte groups; each group carries a 2-byte word followed by its CRC-8;
a CRC mismatch raises RuntimeError.  A trailing group of fewer than 3
bytes would raise IndexError in the source loop. -/
def check_buffer_crc : List Nat → Except String Bool
  | [] => .ok true
  | b0 :: b1 :: c :: rest =>
      if crc8 [b0, b1] == c then check_buffer_crc rest
      else .error "CRC check failed while reading data"
  | _ => .error "IndexError"

/-- struct.unpack of a big-endian SIGNED 16-bit word (format h) from a
16-bit value. -/
def signed16 (w : Nat) : Int :=
  if w ≥ 32768 then (w : Int) - 65536 else (w : Int)

/-- The correction word SCD40.force_calibration unpacks from the first
two reply bytes, with struct format greater-than h (signed). -/
def force_calibration_correction (b0 b1 : Nat) : Int :=
  signed16 ((b0 % 256) * 256 + b1 % 256)

/-- The error decision of SCD40.force_calibration after the reply has
been read: raise RuntimeError when the unpacked correction equals
0xFFFF. -/
def force_calibration (b0 b1 : Nat) : Except String Unit :=
  if force_calibration_correction b0 b1 = 0xFFFF then
    .error "Forced recalibration failed"
  else
    .ok ()

/-- The reading caches of the SCD40 driver. -/
structure State where
  co2 : Option Nat
  temperature : Option ℚ
  relative_humidity : Option ℚ
  deriving Repr, DecidableEq

/-- SCD40 constructor: all three reading caches start as None. -/
def init : State :=
  { co2 := none, temperature := none, relative_humidity := none }

/-- The parameter names of the method SCD40._read_reply, whose
signature is (self, buff, num): it accepts no keyword other than these
two positional names. -/
def read_reply_param_names : List String := ["buff", "num"]

/-- The keyword names used at the _read_reply call sites inside
data_ready and read_data: delay_ms, length, cmd (and the same three
names, plus values 9 and READMEASUREMENT, at the read_data site). -/
def data_ready_kwargs : List String := ["delay_ms", "length", "cmd"]

/-- A Python call binds only if every keyword argument name matches a
parameter name; otherwise the call itself raises TypeError. -/
def kwargs_accepted (params kwargs : List String) : Bool :=
  kwargs.all (fun k => params.contains k)

/-- The error a mismatched keyword call raises. -/
def typeerror_msg : String :=
  "TypeError: _read_reply got an unexpected keyword argument"

/-- SCD40.data_ready from envmon/scd40.py: it invokes
self._read_reply(delay_ms=1, length=3, cmd=DATAREADY), but the method
_read_reply(self, buff, num) accepts none of those keywords, so the
call raises TypeError before the status word can be read; the ready-bit
test on the reply is staged in the (unreachable) accepted branch. -/
def data_ready (reply : List Nat) : Except String Bool :=
  if kwargs_accepted read_reply_param_names data_ready_kwargs then
    .ok (!(((reply.getD 0 0 &&& 0x07) == 0) && (reply.getD 1 0 == 0)))
  else
    .error typeerror_msg

/-- SCD40.read_data from envmon/scd40.py: it also invokes _read_reply
with the keywords delay_ms, length, cmd and so raises the same
TypeError; the decode of the 9-byte measurement reply into the three
caches is staged in the (unreachable) accepted branch. -/
def read_data (buf : List Nat) : Except String State :=
  if kwargs_accepted read_reply_param_names data_ready_kwargs then
    .ok { co2 := some (buf.getD 0 0 <<< 8 ||| buf.getD 1 0),
          temperature :=
            some (-45 + 175 *
              (((buf.getD 3 0 <<< 8 ||| buf.getD 4 0 : Nat) : ℚ) / 65536)),
          relative_humidity :=
            some (100 *
              (((buf.getD 6 0 <<< 8 ||| buf.getD 7 0 : Nat) : ℚ) / 65536)) }
  else
    .error typeerror_msg

/-- The CO2 property accessor: evaluate the data_ready poll (which in
the source raises TypeError); were it to report ready, read and cache a
fresh measurement; otherwise return the cache. -/
def CO2 (s : State) (ready_reply meas_reply : List Nat) :
    Except String (State × Option Nat) :=
  match data_ready ready_reply with
  | .error e => .error e
  | .ok true =>
      match read_data meas_reply with
      | .error e => .error e
      | .ok s' => .ok (s', s'.co2)
  | .ok false => .ok (s, s.co2)

/-- The temperature property accessor, same shape as CO2. -/
def temperature (s : State) (ready_reply meas_reply : List Nat) :
    Except String (State × Option ℚ) :=
  match data_ready ready_reply with
  | .error e => .error e
  | .ok true =>
      match read_data meas_reply with
      | .error e => .error e
      | .ok s' => .ok (s', s'.temperature)
  | .ok false => .ok (s, s.temperature)

/-- The relative_humidity property accessor, same shape as CO2. -/
def relative_humidity (s : State) (ready_reply meas_reply : List Nat) :
    Except String (State × Option ℚ) :=
  match data_ready ready_reply with
  | .error e => .error e
  | .ok true =>
      match read_data meas_reply with
      | .error e => .error e
      | .ok s' => .ok (s', s'.relative_humidity)
  | .ok false => .ok (s, s.relative_humidity)

/-- SCD40.read: query the CO2 and relative_humidity accessors (each
evaluates the data_ready poll) and write the results into the shared
store fields co2 and humidity; any exception from the accessors
propagates. -/
def read (s : State) (rr1 mr1 rr2 mr2 : List Nat) (d : SensorData) :
    Except String (State × SensorData) :=
  match CO2 s rr1 mr1 with
  | .error e => .error e
  | .ok p1 =>
      match relative_humidity p1.1 rr2 mr2 with
      | .error e => .error e
      | .ok p2 => .ok (p2.1, { d with co2 := p1.2, humidity := p2.2 })

end SCD40

/-- C5: the CRC-8 with polynomial 0x31 and initial value 0xFF of the
payload 0x00 0x00 is the reference value 0x81; appending the computed
CRC to any 2-byte payload passes check_buffer_crc; and a 3-byte group
whose third byte is not the CRC-8 of the first two raises the CRC
failure error. -/
theorem scd40_crc8_reference_and_roundtrip :
    SCD40.crc8 [0x00, 0x00] = 0x81 ∧
    (∀ b0 b1 : Nat,
      SCD40.check_buffer_crc [b0, b1, SCD40.crc8 [b0, b1]] = .ok true) ∧
    (∀ b0 b1 c : Nat, c ≠ SCD40.crc8 [b0, b1] →
      SCD40.check_buffer_crc [b0, b1, c] =
        .error "CRC check failed while reading data") := by
  refine ⟨by decide, ?_, ?_⟩
  · intro b0 b1
    simp [SCD40.check_buffer_crc]
  · intro b0 b1 c h
    have hbeq : (SCD40.crc8 [b0, b1] == c) = false := by
      simp only [beq_eq_false_iff_ne]
      exact Ne.symm h
    simp [SCD40.check_buffer_crc, hbeq]

/-- Witness for the C5 theorem: the group 0x00 0x00 0x05 carries a
wrong CRC byte (the correct one is 0x81) and is rejected. -/
theorem scd40_crc8_reference_and_roundtrip_witness :
    SCD40.check_buffer_crc [0x00, 0x00, 0x05] =
      .error "CRC check failed while reading data" :=
  scd40_crc8_reference_and_roundtrip.2.2 0 0 5 (by decide)

/-- C3: the claim reads that force_calibration raises exactly when the
returned correction word is the sentinel 0xFFFF.  The code unpacks the
word with the SIGNED format h, so the unpacked value lies in
-32768..32767 and the comparison with 0xFFFF is never true: on the
sentinel reply bytes 0xFF 0xFF (word 0xFFFF) the unpacked correction is
-1 and no error is raised, and indeed no reply whatsoever raises. -/
theorem scd40_force_calibration_sentinel_never_raises :
    (0xFF % 256) * 256 + 0xFF % 256 = 0xFFFF ∧
    SCD40.force_calibration_correction 0xFF 0xFF = -1 ∧
    SCD40.force_calibration 0xFF 0xFF = .ok () ∧
    ∀ b0 b1 : Nat, SCD40.force_calibration b0 b1 = .ok () := by
  refine ⟨by norm_num, by decide, rfl, ?_⟩
  intro b0 b1
  unfold SCD40.force_calibration
  rw [if_neg]
  unfold SCD40.force_calibration_correction SCD40.signed16
  have h0 : b0 % 256 < 256 := Nat.mod_lt _ (by norm_num)
  have h1 : b1 % 256 < 256 := Nat.mod_lt _ (by norm_num)
  by_cases hge : (b0 % 256) * 256 + b1 % 256 ≥ 32768
  · rw [if_pos hge]
    omega
  · rw [if_neg hge]
    omega

/-- C10: the claim reads that, while no measurement has ever been read,
the accessors return the None caches and SCD40.read writes None into the
store.  Counterexample on a fresh driver: every accessor call, and
SCD40.read itself, raises TypeError instead, because the data_ready poll
calls _read_reply with keyword arguments (delay_ms, length, cmd) that
the signature _read_reply(self, buff, num) does not accept; in
particular CO2 does not return the cache pair. -/
theorem scd40_fresh_accessors_raise_cex :
    SCD40.CO2 SCD40.init [] [] = .error SCD40.typeerror_msg ∧
    SCD40.temperature SCD40.init [] [] = .error SCD40.typeerror_msg ∧
    SCD40.relative_humidity SCD40.init [] [] = .error SCD40.typeerror_msg ∧
    SCD40.read SCD40.init [] [] [] [] {} = .error SCD40.typeerror_msg ∧
    SCD40.CO2 SCD40.init [] [] ≠ .ok (SCD40.init, none) :=
  ⟨rfl, rfl, rfl, rfl, fun h => Except.noConfusion h⟩

/-- C10 (amended): the three reading caches are indeed initialised to
None (not 0) by the SCD40 constructor, but the public accessors never
return them: every access to CO2, temperature or relative_humidity
raises TypeError, because the data_ready poll (and read_data) call
_read_reply with the keyword arguments delay_ms, length and cmd while
the method signature is _read_reply(self, buff, num); consequently
SCD40.read raises as well and never writes None (or anything) into the
co2 and humidity fields of the Reading Store. -/
theorem scd40_caches_none_but_accessors_raise (s : SCD40.State)
    (rr mr rr1 mr1 rr2 mr2 : List Nat) (d : SensorData) :
    SCD40.init.co2 = none ∧
    SCD40.init.temperature = none ∧
    SCD40.init.relative_humidity = none ∧
    SCD40.kwargs_accepted SCD40.read_reply_param_names
      SCD40.data_ready_kwargs = false ∧
    SCD40.data_ready rr = .error SCD40.typeerror_msg ∧
    SCD40.CO2 s rr mr = .error SCD40.typeerror_msg ∧
    SCD40.temperature s rr mr = .error SCD40.typeerror_msg ∧
    SCD40.relative_humidity s rr mr = .error SCD40.typeerror_msg ∧
    SCD40.read s rr1 mr1 rr2 mr2 d = .error SCD40.typeerror_msg := by
  refine ⟨rfl, rfl, rfl, by decide, rfl, rfl, rfl, rfl, rfl⟩

/-- True exactly for a raised exception. -/
def isError {ε α : Type} : Except ε α → Bool
  | .error _ => true
  | .ok _ => false

/-- The 9 pressure calibration coefficients (cal_buffer[0]..cal_buffer[8],
dig_P1..dig_P9), floats parsed once from the 24-byte calibration block. -/
structure PressureCal where
  c0 : ℚ
  c1 : ℚ
  c2 : ℚ
  c3 : ℚ
  c4 : ℚ
  c5 : ℚ
  c6 : ℚ
  c7 : ℚ
  c8 : ℚ
  deriving Repr, DecidableEq

/-- The 3 temperature calibration coefficients (dig_T1..dig_T3). -/
structure TempCal where
  t0 : ℚ
  t1 : ℚ
  t2 : ℚ
  deriving Repr, DecidableEq

/-- The first-stage denominator of the Bosch pressure compensation, as
one expression: with v the halved fine temperature minus 64000, it is
(1 + ((cal2 v v / 524288 + cal1 v) / 524288) / 32768) cal0.  Both
bytes_to_pressure and BMP280.pressure stage exactly this value into
their variable var1 before dividing by it. -/
def bmp_var1 (t_fine : ℚ) (cal : PressureCal) : ℚ :=
  (1 + ((cal.c2 * (t_fine / 2 - 64000) * (t_fine / 2 - 64000) / 524288 +
          cal.c1 * (t_fine / 2 - 64000)) / 524288) / 32768) * cal.c0

/-- The guard message of the division-by-zero check. -/
def calibration_error_msg : String :=
  "Invalid result possibly related to error while reading the calibration registers"

/-- bytes_to_pressure from envmon/equations.py.  Raises ArithmeticError
when the first-stage denominator is exactly zero; otherwise computes the
compensated pressure but, the function body having no return statement,
returns None. -/
def bytes_to_pressure (adc_raw : ℚ) (temp_fine : ℚ) (cal : PressureCal) :
    Except String (Option ℚ) :=
  let var1 := temp_fine / 2 - 64000
  let var2 := var1 * var1 * cal.c5 / 32768
  let var2 := var2 + var1 * cal.c4 * 2
  let var2 := var2 / 4 + cal.c3 * 65536
  let var3 := cal.c2 * var1 * var1 / 524288
  let var1 := (var3 + cal.c1 * var1) / 524288
  let var1 := (1 + var1 / 32768) * cal.c0
  if var1 = 0 then
    .error calibration_error_msg
  else
    let pressure := 1048576 - adc_raw
    let pressure := (pressure - var2 / 4096) * 6250 / var1
    let var1 := cal.c8 * pressure * pressure / 2147483648
    let var2 := pressure * cal.c7 / 32768
    let pressure := pressure + (var1 + var2 + cal.c6) / 16
    let _pressure := pressure / 100
    .ok none

namespace BMP280

/-- The value BMP280.pressure computes when the guard passes, as a
function of fine temperature, shifted raw pressure ADC value and the
pressure calibration coefficients. -/
def pressure_value (t_fine : ℚ) (adc : ℚ) (cal : PressureCal) : ℚ :=
  let var1 := t_fine / 2 - 64000
  let var2 := var1 * var1 * cal.c5 / 32768
  let var2 := var2 + var1 * cal.c4 * 2
  let var2 := var2 / 4 + cal.c3 * 65536
  let var3 := cal.c2 * var1 * var1 / 524288
  let var1 := (var3 + cal.c1 * var1) / 524288
  let var1 := (1 + var1 / 32768) * cal.c0
  let pressure := 1048576 - adc
  let pressure := (pressure - var2 / 4096) * 6250 / var1
  let var1 := cal.c8 * pressure * pressure / 2147483648
  let var2 := pressure * cal.c7 / 32768
  let pressure := pressure + (var1 + var2 + cal.c6) / 16
  pressure / 100

/-- The pressure property of envmon/bmp280.py: identical staged formula,
with the ArithmeticError guard on a zero first-stage denominator, and
(unlike bytes_to_pressure) an explicit return of the result. -/
def pressure (t_fine : ℚ) (adc : ℚ) (cal : PressureCal) :
    Except String ℚ :=
  let var1 := t_fine / 2 - 64000
  let var2 := var1 * var1 * cal.c5 / 32768
  let var2 := var2 + var1 * cal.c4 * 2
  let var2 := var2 / 4 + cal.c3 * 65536
  let var3 := cal.c2 * var1 * var1 / 524288
  let var1 := (var3 + cal.c1 * var1) / 524288
  let var1 := (1 + var1 / 32768) * cal.c0
  if var1 = 0 then
    .error calibration_error_msg
  else
    let pressure := 1048576 - adc
    let pressure := (pressure - var2 / 4096) * 6250 / var1
    let var1 := cal.c8 * pressure * pressure / 2147483648
    let var2 := pressure * cal.c7 / 32768
    let pressure := pressure + (var1 + var2 + cal.c6) / 16
    .ok (pressure / 100)

end BMP280

lemma bytes_to_pressure_eq (adc t_fine : ℚ) (cal : PressureCal) :
    bytes_to_pressure adc t_fine cal =
      if bmp_var1 t_fine cal = 0 then .error calibration_error_msg
      else .ok none := rfl

lemma bmp_pressure_eq (t_fine adc : ℚ) (cal : PressureCal) :
    BMP280.pressure t_fine adc cal =
      if bmp_var1 t_fine cal = 0 then .error calibration_error_msg
      else .ok (BMP280.pressure_value t_fine adc cal) := rfl

/-- C4: both pressure compensation routines raise ArithmeticError
exactly when the first-stage denominator var1 from the claim, namely
(1 + ((cal2 v v / 524288 + cal1 v) / 524288) / 32768) cal0 with v the
halved fine temperature minus 64000, is exactly zero; when it is zero
the guard fires before any division by var1 and the raised error is the
calibration message, no value being produced (floats are modelled as
exact rationals, which have no NaN or infinity). -/
theorem pressure_guard_iff_var1_zero (t_fine adc : ℚ) (cal : PressureCal) :
    (isError (bytes_to_pressure adc t_fine cal) = true ↔
      bmp_var1 t_fine cal = 0) ∧
    (isError (BMP280.pressure t_fine adc cal) = true ↔
      bmp_var1 t_fine cal = 0) ∧
    (bmp_var1 t_fine cal = 0 →
      bytes_to_pressure adc t_fine cal = .error calibration_error_msg ∧
      BMP280.pressure t_fine adc cal = .error calibration_error_msg) := by
  rw [bytes_to_pressure_eq, bmp_pressure_eq]
  by_cases h : bmp_var1 t_fine cal = 0
  · simp [h, isError]
  · simp [h, isError]

/-- Witness for the C4 theorem: the all-zero coefficient set zeroes the
first-stage denominator and both routines raise the calibration error. -/
theorem pressure_guard_iff_var1_zero_witness :
    bytes_to_pressure 0 0 (PressureCal.mk 0 0 0 0 0 0 0 0 0) =
        .error calibration_error_msg ∧
    BMP280.pressure 0 0 (PressureCal.mk 0 0 0 0 0 0 0 0 0) =
        .error calibration_error_msg :=
  (pressure_guard_iff_var1_zero 0 0 (PressureCal.mk 0 0 0 0 0 0 0 0 0)).2.2
    (by unfold bmp_var1; norm_num)

/-- Python int() applied to a rational: truncation toward zero. -/
def pyInt (q : ℚ) : ℤ :=
  if q < 0 then -((-q).floor) else q.floor

namespace Sensors

/-- Sensor._reg_to_float from envmon/sensors.py: big-endian byte fold
into a float. -/
def reg_to_float (reg_raw : List Nat) : ℚ :=
  reg_raw.foldl (fun val b => val * 256 + ((b &&& 0xFF : Nat) : ℚ)) 0

/-- BMP280._temp_raw_to_c from envmon/sensors.py: the two-term
temperature compensation, truncated to an int and divided by 5120. -/
def temp_raw_to_c (raw : ℚ) (tcal : TempCal) : ℚ :=
  let var1 := (raw / 16384 - tcal.t0 / 1024) * tcal.t1
  let var2 := ((raw / 131072 - tcal.t0 / 8192) *
               (raw / 131072 - tcal.t0 / 8192)) * tcal.t2
  ((pyInt (var1 + var2) : ℤ) : ℚ) / 5120

/-- The error raised when _send_i2c_raw, with the device connected and
a command given, reads the _send_buffer attribute that neither Sensor
nor the sensors.py BMP280 class ever assigns. -/
def send_buffer_attr_err : String :=
  "AttributeError: Sensor object has no attribute _send_buffer"

/-- The error raised by the guard at the top of Sensor._get_i2c_raw
when the instance attribute _buffer is None. -/
def buffer_none_err : String :=
  "NotImplementedError: Need to give this a bytearray buffer"

/-- Sensor._send_i2c_raw from envmon/sensors.py: does nothing when the
device is not connected; when connected and a command is given, the
first statement reads self._send_buffer, an attribute the instance may
never have been given (has_send_buffer false), raising AttributeError
before anything is written.  The cmd None branch would hand None to the
bus write and is not taken by _read_register. -/
def send_i2c_raw (connected : Bool) (has_send_buffer : Bool)
    (cmd : Option (List Nat)) : Except String Unit :=
  if connected then
    match cmd with
    | some _ =>
        if has_send_buffer then .ok () else .error send_buffer_attr_err
    | none => .ok ()
  else
    .ok ()

/-- The head guard of Sensor._get_i2c_raw from envmon/sensors.py: the
call raises NotImplementedError whenever the instance attribute
_buffer is None, before the connection state is consulted; with a
non-None _buffer the bus read proceeds (that continuation is the
connection machine verified separately and is not needed here, because
the sensors.py BMP280 constructor pins _buffer to None). -/
def get_i2c_raw_guard (self_buffer : Option (List Nat)) :
    Except String Unit :=
  match self_buffer with
  | none => .error buffer_none_err
  | some _ => .ok ()

/-- Sensor._read_register as executed by the sensors.py BMP280
instance, whose constructor sets _buffer = None and never assigns
_send_buffer: _send_read_raw first sends the one-byte register command
(AttributeError when connected), then reads the reply into a buffer
(NotImplementedError at the _buffer guard); if both somehow passed,
_read_register itself has no return statement and would return None. -/
def bmp280_read_register (connected : Bool) (register : Nat) :
    Except String (Option (List Nat)) :=
  match send_i2c_raw connected false (some [register &&& 0xFF]) with
  | .error e => .error e
  | .ok _ =>
      match get_i2c_raw_guard none with
      | .error e => .error e
      | .ok _ => .ok none

/-- BMP280.read from envmon/sensors.py, staged with its real register
chain: the first _read_register call raises (AttributeError when the
device is connected, NotImplementedError otherwise) before
bytes_to_pressure is ever invoked; the dead continuation is kept, where
iterating _reg_to_float over a None register result would itself raise
TypeError. -/
def bmp280_read (connected : Bool) (tcal : TempCal) (pcal : PressureCal) :
    Except String (ℚ × Option ℚ) :=
  match bmp280_read_register connected 0x24 with
  | .error e => .error e
  | .ok none => .error "TypeError: NoneType object is not iterable"
  | .ok (some temp_bytes) =>
      let temp_raw := reg_to_float temp_bytes / 16
      let temp_c := temp_raw_to_c temp_raw tcal
      match bmp280_read_register connected 0xF7 with
      | .error e => .error e
      | .ok none => .error "TypeError: NoneType object is not iterable"
      | .ok (some pressure_bytes) =>
          let pressure_raw := reg_to_float pressure_bytes
          match bytes_to_pressure pressure_raw temp_raw pcal with
          | .error e => .error e
          | .ok p => .ok (temp_c, p)

end Sensors

/-- C9: the claim reads that sensors.BMP280.read receives the None that
bytes_to_pressure returns.  Counterexample at a calibration set with
nonzero first-stage denominator: sensors.BMP280.read raises inside its
first register read, whichever the connection state, and never returns
a pair at all: connected, the command send trips over the never-assigned
_send_buffer attribute; disconnected, the reply read trips over the
_buffer guard, the instance attribute being pinned to None by the
constructor. -/
theorem sensors_bmp280_read_always_raises_cex :
    Sensors.bmp280_read true (TempCal.mk 0 0 0)
        (PressureCal.mk 1 0 0 0 0 0 0 0 0) =
      .error Sensors.send_buffer_attr_err ∧
    Sensors.bmp280_read false (TempCal.mk 0 0 0)
        (PressureCal.mk 1 0 0 0 0 0 0 0 0) =
      .error Sensors.buffer_none_err ∧
    Sensors.bmp280_read false (TempCal.mk 0 0 0)
        (PressureCal.mk 1 0 0 0 0 0 0 0 0) ≠
      .ok (Sensors.temp_raw_to_c (Sensors.reg_to_float [] / 16)
             (TempCal.mk 0 0 0), none) :=
  ⟨rfl, rfl, fun h => Except.noConfusion h⟩

/-- C9 (amended): whenever the first-stage denominator is nonzero (so
the guard does not fire), the standalone compensation routine
bytes_to_pressure returns None, its body having no return statement, so
a caller that reached the call would receive None in place of the
computed hectopascal figure; but BMP280.read in envmon/sensors.py never
does receive it: its first register read raises before bytes_to_pressure
is invoked (AttributeError on the never-assigned _send_buffer when
connected, NotImplementedError on the None _buffer otherwise). -/
theorem bytes_to_pressure_none_but_sensors_read_raises :
    (∀ (adc t_fine : ℚ) (cal : PressureCal), bmp_var1 t_fine cal ≠ 0 →
      bytes_to_pressure adc t_fine cal = .ok none) ∧
    (∀ (tcal : TempCal) (pcal : PressureCal),
      Sensors.bmp280_read true tcal pcal =
        .error Sensors.send_buffer_attr_err ∧
      Sensors.bmp280_read false tcal pcal =
        .error Sensors.buffer_none_err) := by
  constructor
  · intro adc t_fine cal h
    rw [bytes_to_pressure_eq, if_neg h]
  · intro tcal pcal
    exact ⟨rfl, rfl⟩

/-- Witness for the amended C9 theorem: coefficient c0 = 1, every other
coefficient 0, gives denominator 1, and bytes_to_pressure returns
None. -/
theorem bytes_to_pressure_none_but_sensors_read_raises_witness :
    bytes_to_pressure 0 0 (PressureCal.mk 1 0 0 0 0 0 0 0 0) = .ok none :=
  bytes_to_pressure_none_but_sensors_read_raises.1 0 0
    (PressureCal.mk 1 0 0 0 0 0 0 0 0) (by unfold bmp_var1; norm_num)

namespace BMP280

/-- Register addresses from the Register enum of envmon/bmp280.py. -/
def CTRL_MEAS : Nat := 0xF4

/-- The config register address. -/
def CONFIG : Nat := 0xF5

/-- The three mode values of the Mode enum: SLEEP, FORCE, NORMAL. -/
def SLEEP : Nat := 0x00

/-- The forced-measurement mode value. -/
def FORCE : Nat := 0x01

/-- The continuous-measurement mode value. -/
def NORMAL : Nat := 0x03

/-- The valid values of the Standby enum (standby time constants). -/
def standbyValues : List Nat := [0x00, 0x06, 0x07, 0x01, 0x02, 0x03, 0x04, 0x05]

/-- The valid values of the IIR_Filter enum. -/
def iirValues : List Nat := [0, 0x01, 0x02, 0x03, 0x04]

/-- The mutable configuration of the BMP280 driver object. -/
structure Config where
  mode : Nat
  t_standby : Nat
  iir_filter : Nat
  overscan_temperature : Nat
  overscan_pressure : Nat
  deriving Repr, DecidableEq

/-- A register write issued to the bus: register address and value. -/
structure Write where
  reg : Nat
  value : Nat
  deriving Repr, DecidableEq

/-- The ctrl_meas property: oversampling values shifted into bits 5..7
and 2..4, mode in the low 2 bits. -/
def ctrl_meas (s : Config) : Nat :=
  (s.overscan_temperature <<< 5) + (s.overscan_pressure <<< 2) + s.mode

/-- The config property: standby bits only included while the driver
believes it is in Normal mode, IIR bits only when the filter is
enabled. -/
def config (s : Config) : Nat :=
  (if s.mode == NORMAL then s.t_standby <<< 5 else 0) +
  (if s.iir_filter != 0 then s.iir_filter <<< 2 else 0)

/-- The mode setter with a valid value (as invoked internally by
write_config with SLEEP and NORMAL): store the mode and write the
ctrl_meas register. -/
def set_mode (s : Config) (v : Nat) : Config × List Write :=
  let s' := { s with mode := v }
  (s', [⟨CTRL_MEAS, ctrl_meas s'⟩])

/-- BMP280.write_config: when in Normal mode, transition to Sleep
(a ctrl_meas write), write the config register, then transition back to
Normal (another ctrl_meas write); otherwise a single config write. -/
def write_config (s : Config) : Config × List Write :=
  if s.mode == NORMAL then
    let p1 := set_mode s SLEEP
    let w2 : Write := ⟨CONFIG, config p1.1⟩
    let p3 := set_mode p1.1 NORMAL
    (p3.1, p1.2 ++ [w2] ++ p3.2)
  else
    (s, [⟨CONFIG, config s⟩])

/-- The standby_period property setter: reject an invalid enumerated
value, return without any write when the value is unchanged, otherwise
store it and run write_config. -/
def standby_period_set (s : Config) (v : Nat) :
    Except String (Config × List Write) :=
  if v ∈ standbyValues then
    if s.t_standby == v then .ok (s, [])
    else .ok (write_config { s with t_standby := v })
  else
    .error "Standby Period not supported"

/-- The iir_filter property setter: reject an invalid enumerated value,
otherwise store it and run write_config (no unchanged-value
short-circuit in the source). -/
def iir_filter_set (s : Config) (v : Nat) :
    Except String (Config × List Write) :=
  if v ∈ iirValues then
    .ok (write_config { s with iir_filter := v })
  else
    .error "IIR Filter not supported"

end BMP280

lemma bmp_ctrl_meas_mode_bits (s : BMP280.Config) (hm : s.mode < 4) :
    BMP280.ctrl_meas s % 4 = s.mode := by
  unfold BMP280.ctrl_meas
  have h1 : s.overscan_temperature <<< 5 % 4 = 0 := by
    rw [Nat.shiftLeft_eq]
    omega
  have h2 : s.overscan_pressure <<< 2 % 4 = 0 := by
    rw [Nat.shiftLeft_eq]
    omega
  rw [Nat.shiftLeft_eq, Nat.shiftLeft_eq]
  omega

lemma bmp_write_config_normal (s : BMP280.Config) (hm : s.mode = BMP280.NORMAL) :
    BMP280.write_config s =
      ({ s with mode := BMP280.NORMAL },
       [⟨BMP280.CTRL_MEAS, BMP280.ctrl_meas { s with mode := BMP280.SLEEP }⟩,
        ⟨BMP280.CONFIG, BMP280.config { s with mode := BMP280.SLEEP }⟩,
        ⟨BMP280.CTRL_MEAS, BMP280.ctrl_meas { s with mode := BMP280.NORMAL }⟩]) := by
  unfold BMP280.write_config BMP280.set_mode
  rw [if_pos (by simp [hm])]
  rfl

lemma bmp_write_config_other (s : BMP280.Config)
    (hm : s.mode ≠ BMP280.NORMAL) :
    BMP280.write_config s = (s, [⟨BMP280.CONFIG, BMP280.config s⟩]) := by
  unfold BMP280.write_config
  rw [if_neg (by simp [BMP280.NORMAL] at hm ⊢; omega)]

/-- C7: a call that changes the standby-period or IIR-filter setting
while the driver mode is Normal performs exactly three bus writes, in
order: one ctrl_meas write whose mode bits are Sleep, one config
register write, and one ctrl_meas write whose mode bits restore Normal;
the driver mode afterwards equals the mode before.  When the mode is
not Normal the same calls perform exactly one config-register write and
no ctrl_meas write, the mode again unchanged. -/
theorem bmp_config_setters_sleep_write_normal_cycle :
    (∀ (s : BMP280.Config) (v : Nat), s.mode = BMP280.NORMAL →
      v ∈ BMP280.standbyValues → v ≠ s.t_standby →
      BMP280.standby_period_set s v =
        .ok ({ s with t_standby := v },
          [⟨BMP280.CTRL_MEAS,
              BMP280.ctrl_meas { s with t_standby := v, mode := BMP280.SLEEP }⟩,
           ⟨BMP280.CONFIG,
              BMP280.config { s with t_standby := v, mode := BMP280.SLEEP }⟩,
           ⟨BMP280.CTRL_MEAS,
              BMP280.ctrl_meas { s with t_standby := v, mode := BMP280.NORMAL }⟩]) ∧
      BMP280.ctrl_meas { s with t_standby := v, mode := BMP280.SLEEP } % 4 =
        BMP280.SLEEP ∧
      BMP280.ctrl_meas { s with t_standby := v, mode := BMP280.NORMAL } % 4 =
        BMP280.NORMAL ∧
      ({ s with t_standby := v } : BMP280.Config).mode = s.mode) ∧
    (∀ (s : BMP280.Config) (v : Nat), s.mode = BMP280.NORMAL →
      v ∈ BMP280.iirValues → v ≠ s.iir_filter →
      BMP280.iir_filter_set s v =
        .ok ({ s with iir_filter := v },
          [⟨BMP280.CTRL_MEAS,
              BMP280.ctrl_meas { s with iir_filter := v, mode := BMP280.SLEEP }⟩,
           ⟨BMP280.CONFIG,
              BMP280.config { s with iir_filter := v, mode := BMP280.SLEEP }⟩,
           ⟨BMP280.CTRL_MEAS,
              BMP280.ctrl_meas { s with iir_filter := v, mode := BMP280.NORMAL }⟩]) ∧
      BMP280.ctrl_meas { s with iir_filter := v, mode := BMP280.SLEEP } % 4 =
        BMP280.SLEEP ∧
      BMP280.ctrl_meas { s with iir_filter := v, mode := BMP280.NORMAL } % 4 =
        BMP280.NORMAL ∧
      ({ s with iir_filter := v } : BMP280.Config).mode = s.mode) ∧
    (∀ (s : BMP280.Config) (v : Nat), s.mode ≠ BMP280.NORMAL →
      v ∈ BMP280.standbyValues → v ≠ s.t_standby →
      BMP280.standby_period_set s v =
        .ok ({ s with t_standby := v },
          [⟨BMP280.CONFIG, BMP280.config { s with t_standby := v }⟩]) ∧
      ({ s with t_standby := v } : BMP280.Config).mode = s.mode) ∧
    (∀ (s : BMP280.Config) (v : Nat), s.mode ≠ BMP280.NORMAL →
      v ∈ BMP280.iirValues →
      BMP280.iir_filter_set s v =
        .ok ({ s with iir_filter := v },
          [⟨BMP280.CONFIG, BMP280.config { s with iir_filter := v }⟩]) ∧
      ({ s with iir_filter := v } : BMP280.Config).mode = s.mode) := by
  refine ⟨?_, ?_, ?_, ?_⟩
  · intro s v hm hv hne
    obtain ⟨m, ts, ii, ot, osp⟩ := s
    simp only at hm hne
    subst hm
    refine ⟨?_, bmp_ctrl_meas_mode_bits _ (by norm_num [BMP280.SLEEP]),
      bmp_ctrl_meas_mode_bits _ (by norm_num [BMP280.NORMAL]), rfl⟩
    unfold BMP280.standby_period_set
    rw [if_pos hv,
      if_neg (by simp only [beq_iff_eq]; exact Ne.symm hne),
      bmp_write_config_normal _ rfl]
  · intro s v hm hv hne
    obtain ⟨m, ts, ii, ot, osp⟩ := s
    simp only at hm hne
    subst hm
    refine ⟨?_, bmp_ctrl_meas_mode_bits _ (by norm_num [BMP280.SLEEP]),
      bmp_ctrl_meas_mode_bits _ (by norm_num [BMP280.NORMAL]), rfl⟩
    unfold BMP280.iir_filter_set
    rw [if_pos hv, bmp_write_config_normal _ rfl]
  · intro s v hm hv hne
    refine ⟨?_, rfl⟩
    unfold BMP280.standby_period_set
    rw [if_pos hv,
      if_neg (by simp only [beq_iff_eq]; exact Ne.symm hne),
      bmp_write_config_other _ (by exact hm)]
  · intro s v hm hv
    refine ⟨?_, rfl⟩
    unfold BMP280.iir_filter_set
    rw [if_pos hv, bmp_write_config_other _ (by exact hm)]

/-- Witness for the C7 theorem: from Normal mode with standby value 0,
changing the standby period to 0x06 issues the Sleep, config, Normal
write triple; from Sleep mode the same change issues one config
write. -/
theorem bmp_config_setters_sleep_write_normal_cycle_witness :
    BMP280.standby_period_set (BMP280.Config.mk BMP280.NORMAL 0 0 2 5) 6 =
      .ok (BMP280.Config.mk BMP280.NORMAL 6 0 2 5,
        [⟨BMP280.CTRL_MEAS,
            BMP280.ctrl_meas (BMP280.Config.mk BMP280.SLEEP 6 0 2 5)⟩,
         ⟨BMP280.CONFIG, BMP280.config (BMP280.Config.mk BMP280.SLEEP 6 0 2 5)⟩,
         ⟨BMP280.CTRL_MEAS,
            BMP280.ctrl_meas (BMP280.Config.mk BMP280.NORMAL 6 0 2 5)⟩]) ∧
    BMP280.standby_period_set (BMP280.Config.mk BMP280.SLEEP 0 0 2 5) 6 =
      .ok (BMP280.Config.mk BMP280.SLEEP 6 0 2 5,
        [⟨BMP280.CONFIG, BMP280.config (BMP280.Config.mk BMP280.SLEEP 6 0 2 5)⟩]) :=
  ⟨(bmp_config_setters_sleep_write_normal_cycle.1
      (BMP280.Config.mk BMP280.NORMAL 0 0 2 5) 6 rfl (by decide) (by decide)).1,
   (bmp_config_setters_sleep_write_normal_cycle.2.2.1
      (BMP280.Config.mk BMP280.SLEEP 0 0 2 5) 6 (by decide) (by decide)
      (by decide)).1⟩

namespace Sensors

/-- The per-device connection state of the Sensor base class in
envmon/sensors.py: the retry counter and the _connected attribute, whose
Python value ranges over None, False and True (modelled as Option
Bool). -/
structure ConnState where
  retries : Nat
  connected : Option Bool
  deriving Repr, DecidableEq

/-- Python truthiness of the _connected attribute: only True is truthy,
None and False are falsy. -/
def truthy : Option Bool → Bool
  | some true => true
  | _ => false

/-- Sensor.open_connection: when the retry counter already exceeds 5,
return None immediately without touching the bus; otherwise probe the
bus address (constructing the I2CDevice), returning True on success and
False (with the counter incremented) on ValueError.  The result triple
is (returned value, new state, whether the bus address was probed). -/
def open_connection (s : ConnState) (probeOk : Bool) :
    Option Bool × ConnState × Bool :=
  if s.retries > 5 then
    (none, s, false)
  else if probeOk then
    (some true, s, true)
  else
    (some false, { s with retries := s.retries + 1 }, true)

/-- Sensor constructor connection step: _connected is assigned the value
open_connection returns on the first probe. -/
def conn_init (probeOk : Bool) : ConnState :=
  let p := open_connection ⟨0, none⟩ probeOk
  { p.2.1 with connected := p.1 }

/-- Sensor._get_i2c_raw: when _connected is truthy, perform the bus read
(an OSError marks the device disconnected); otherwise call
open_connection, DISCARDING its return value, so _connected is never
reassigned on that path.  Returns the new state and whether the bus
address was probed. -/
def get_i2c_raw (s : ConnState) (oserr probeOk : Bool) : ConnState × Bool :=
  if truthy s.connected then
    (if oserr then { s with connected := some false } else s, false)
  else
    let p := open_connection s probeOk
    (p.2.1, p.2.2)

/-- A sequence of read operations against a device; each element gives
the environment outcome of that operation (whether the bus read raises
OSError, whether a probe would succeed).  Returns the final state and
the per-operation probe flags. -/
def conn_run (s : ConnState) (ops : List (Bool × Bool)) :
    ConnState × List Bool :=
  match ops with
  | [] => (s, [])
  | (oe, pk) :: rest =>
      let p := get_i2c_raw s oe pk
      let q := conn_run p.1 rest
      (q.1, p.2 :: q.2)

/-- Invariant of the connection state machine: a truthy _connected can
only coexist with a zero retry counter (the counter increments only on
probe failures, which happen only while disconnected, and the result of
those later probes is discarded). -/
def conn_inv (s : ConnState) : Prop :=
  truthy s.connected = true → s.retries = 0

end Sensors

lemma conn_inv_init (p : Bool) : Sensors.conn_inv (Sensors.conn_init p) := by
  cases p
  · intro h
    exact absurd h (by decide)
  · intro h
    rfl

lemma conn_inv_step (s : Sensors.ConnState) (oe pk : Bool)
    (h : Sensors.conn_inv s) :
    Sensors.conn_inv (Sensors.get_i2c_raw s oe pk).1 := by
  unfold Sensors.get_i2c_raw Sensors.open_connection
  by_cases ht : Sensors.truthy s.connected = true
  · rw [if_pos ht]
    cases oe
    · simpa using h
    · intro hc
      simp [Sensors.truthy] at hc
  · rw [if_neg ht]
    by_cases hr : s.retries > 5
    · rw [if_pos hr]
      exact h
    · rw [if_neg hr]
      cases pk
      · simp only [Bool.false_eq_true, if_false]
        intro hc
        exact absurd hc ht
      · simp only [if_true]
        intro hc
        exact absurd hc ht

lemma conn_inv_run (s : Sensors.ConnState) (ops : List (Bool × Bool))
    (h : Sensors.conn_inv s) :
    Sensors.conn_inv (Sensors.conn_run s ops).1 := by
  induction ops generalizing s with
  | nil => exact h
  | cons op rest ih =>
      obtain ⟨oe, pk⟩ := op
      exact ih _ (conn_inv_step s oe pk h)

lemma conn_step_frozen (s : Sensors.ConnState) (oe pk : Bool)
    (hr : s.retries > 5) (hc : Sensors.truthy s.connected = false) :
    Sensors.get_i2c_raw s oe pk = (s, false) := by
  unfold Sensors.get_i2c_raw Sensors.open_connection
  rw [if_neg (by simp [hc]), if_pos hr]

lemma conn_run_frozen (s : Sensors.ConnState) (ops : List (Bool × Bool))
    (hr : s.retries > 5) (hc : Sensors.truthy s.connected = false) :
    Sensors.conn_run s ops = (s, List.replicate ops.length false) := by
  induction ops with
  | nil => rfl
  | cons op rest ih =>
      obtain ⟨oe, pk⟩ := op
      unfold Sensors.conn_run
      rw [conn_step_frozen s oe pk hr hc]
      simp [ih, List.replicate_succ]

/-- C8: for any device state reachable from construction through any
sequence of read operations, once the connection open has failed more
than 5 times (the retry counter exceeds 5), the device is marked
disconnected (_connected is falsy), every subsequent operation leaves
the state exactly as it is (so it remains disconnected for the rest of
the process run), and no subsequent operation probes the bus address
(every probe flag is false). -/
theorem sensor_retry_budget_permanently_disconnected (p : Bool)
    (ops0 ops : List (Bool × Bool))
    (hr : ((Sensors.conn_run (Sensors.conn_init p) ops0).1).retries > 5) :
    Sensors.truthy ((Sensors.conn_run (Sensors.conn_init p) ops0).1).connected
      = false ∧
    Sensors.conn_run ((Sensors.conn_run (Sensors.conn_init p) ops0).1) ops =
      ((Sensors.conn_run (Sensors.conn_init p) ops0).1,
       List.replicate ops.length false) := by
  have hinv : Sensors.conn_inv (Sensors.conn_run (Sensors.conn_init p) ops0).1 :=
    conn_inv_run _ _ (conn_inv_init p)
  have hc : Sensors.truthy
      ((Sensors.conn_run (Sensors.conn_init p) ops0).1).connected = false := by
    by_cases h : Sensors.truthy
        ((Sensors.conn_run (Sensors.conn_init p) ops0).1).connected = true
    · exact absurd (hinv h) (by omega)
    · simpa using h
  exact ⟨hc, conn_run_frozen _ _ hr hc⟩

/-- Witness for the C8 theorem: a first probe failure at construction
and five more failing probes drive the retry counter to 6; two further
operations then probe nothing and change nothing. -/
theorem sensor_retry_budget_permanently_disconnected_witness :
    ((Sensors.conn_run (Sensors.conn_init false)
        [(false, false), (false, false), (false, false), (false, false),
         (false, false)]).1).retries > 5 ∧
    Sensors.truthy ((Sensors.conn_run (Sensors.conn_init false)
        [(false, false), (false, false), (false, false), (false, false),
         (false, false)]).1).connected = false ∧
    Sensors.conn_run ((Sensors.conn_run (Sensors.conn_init false)
        [(false, false), (false, false), (false, false), (false, false),
         (false, false)]).1) [(true, true), (false, true)] =
      ((Sensors.conn_run (Sensors.conn_init false)
          [(false, false), (false, false), (false, false), (false, false),
           (false, false)]).1,
       List.replicate 2 false) :=
  ⟨by decide,
   (sensor_retry_budget_permanently_disconnected false
      [(false, false), (false, false), (false, false), (false, false),
       (false, false)] [(true, true), (false, true)] (by decide)).1,
   (sensor_retry_budget_permanently_disconnected false
      [(false, false), (false, false), (false, false), (false, false),
       (false, false)] [(true, true), (false, true)] (by decide)).2⟩
